import Mathlib

/-!
Formal model of the navigation pipeline of this router repository.

The definitions below are a shallow embedding of `createRouter` from the
router core (the file also holding `navigate`, `pushWithRedirect`,
`finalizeNavigation`, `runGuardQueue`, `extractChangingRecords`,
`markAsReady`, `isReady` and `triggerError`).  Guards are identified by
natural numbers; an environment assigns every guard the outcome its
callback eventually settles with (accept, abort, redirect, or throw).
Promise chains become explicit sequencing: a computation returns the list
of side effects it performed (guards started, history writes, scroll
handling, error and readiness notifications) together with its result.
Object identity of resolved locations, which the source compares with
strict equality for the pending-navigation race check, is modelled by a
freshly allocated `token` on each `resolve` call.
-/

namespace VueRouter

/-- Raw location in object form, the shape produced by `locationAsObject`:
optional `path` and `name` (an absent key is `none`), the navigation
options `state`, `force` and `replace` read by `pushWithRedirect`. -/
structure RawLoc where
  path : Option String := none
  name : Option String := none
  params : Option (List (String × String)) := none
  query : Option (List (String × String)) := none
  hash : Option String := none
  state : Option Nat := none
  force : Bool := false
  replace : Bool := false
deriving Repr, DecidableEq

/-- A raw navigation target: `push` accepts either a path string or an
object (`RouteLocationRaw`). -/
inductive RawInput
  | str (s : String)
  | obj (l : RawLoc)
deriving Repr, DecidableEq

/-- The `locationAsObject` helper of the router core: a string becomes
`{ path }`, an object is returned unchanged. -/
def locationAsObject : RawInput → RawLoc
  | .str s => { path := some s }
  | .obj l => l

/-- Reading `(to as RouteLocationOptions).state` on a raw target: absent on
a plain string. -/
def RawInput.stateOf : RawInput → Option Nat
  | .str _ => none
  | .obj l => l.state

/-- Reading `(to as RouteLocationOptions).force` on a raw target. -/
def RawInput.forceOf : RawInput → Bool
  | .str _ => false
  | .obj l => l.force

/-- Reading `(to as RouteLocationOptions).replace === true` on a raw
target. -/
def RawInput.replaceOf : RawInput → Bool
  | .str _ => false
  | .obj l => l.replace

/-- The location data shared by every resolved location: path, full path,
hash, query, decoded params, optional leaf name and the matched chain of
record identities, root to leaf.  Records are referenced by their identity
`rid` because the source compares matched records by object reference. -/
structure LocCore where
  path : String := ""
  fullPath : String := ""
  hash : String := ""
  query : List (String × String) := []
  params : List (String × String) := []
  name : Option String := none
  matched : List Nat := []
deriving Repr, DecidableEq

/-- A resolved location together with its object identity token, used as
the back-reference target of `redirectedFrom`. -/
structure MatchedTarget where
  core : LocCore
  token : Nat
deriving Repr, DecidableEq

/-- A resolved `RouteLocation` object: its data, its object identity
token (strict equality in the source compares these), and the
`redirectedFrom` back-reference. -/
structure RouteLocation where
  core : LocCore
  token : Nat
  redirectedFrom : Option MatchedTarget := none
deriving Repr, DecidableEq

/-- Forgetting `redirectedFrom`, for use as a `redirectedFrom` target. -/
def RouteLocation.toTarget (l : RouteLocation) : MatchedTarget :=
  ⟨l.core, l.token⟩

/-- The sentinel `START_LOCATION_NORMALIZED`: path `/`, empty matched
chain, object identity token `0` (every `resolve` call allocates a token
of at least `1`). -/
def START : RouteLocation := { core := { path := "/", fullPath := "/" }, token := 0 }

/-- A per-record `beforeEnter` entry: the source allows a single callback
or an array of callbacks. -/
inductive BeforeEnterGuard
  | one (g : Nat)
  | many (gs : List Nat)
deriving Repr, DecidableEq

/-- A normalized route record: its identity `rid`, the per-component
guards its mounted components expose, the per-record `beforeEnter`
configuration, an optional `redirect` target, and the mutable guard
bookkeeping (`leaveGuards`, `updateGuards`, `instances`) that
`finalizeNavigation` resets on leaving records. -/
structure RouteRecordNormalized where
  rid : Nat
  beforeRouteLeave : List Nat := []
  beforeRouteUpdate : List Nat := []
  beforeRouteEnter : List Nat := []
  beforeEnter : Option BeforeEnterGuard := none
  redirect : Option RawLoc := none
  leaveGuards : List Nat := []
  updateGuards : List Nat := []
  instances : List (String × Nat) := []
deriving Repr, DecidableEq

/-- The outcome a guard callback eventually settles with: acceptance,
abort (returning `false`), a redirect to a new raw target, or throwing an
unrecognized error `e`. -/
inductive GuardOutcome
  | accept
  | abort
  | redirectTo (t : RawInput)
  | failWith (e : Nat)
deriving Repr, DecidableEq

/-- The rejection value of the `navigate` promise chain: an aborted
navigation, a guard redirect signal carrying the new target, or an
unrecognized error. -/
inductive NavErr
  | aborted
  | guardRedirect (t : RawInput)
  | unknown (e : Nat)
deriving Repr, DecidableEq

deriving instance DecidableEq for Except

/-- The kind tag of a `NavigationFailure` created by `createRouterError`:
`NAVIGATION_ABORTED`, `NAVIGATION_CANCELLED`, `NAVIGATION_DUPLICATED`, or
the internal `NAVIGATION_GUARD_REDIRECT` signal carrying its target. -/
inductive FailKind
  | aborted
  | cancelled
  | duplicated
  | guardRedirect (t : RawInput)
deriving Repr, DecidableEq

/-- A `NavigationFailure` value: its kind and the full paths of the two
locations it was created from. -/
structure NavigationFailure where
  kind : FailKind
  toFullPath : String
  fromFullPath : String
deriving Repr, DecidableEq

/-- A rejection surfaced by the promise returned from `push`: the
development-mode `Invalid redirect` error, or an unrecognized error
propagated by `triggerError`. -/
inductive RejErr
  | invalidRedirect
  | unknown (e : Nat)
deriving Repr, DecidableEq

/-- The settlement of the promise returned by `push` or `replace`:
resolution with no value, resolution with a `NavigationFailure`,
rejection, or exhaustion of the recursion fuel (modelling a navigation
that never settles, e.g. an unbounded redirect loop). -/
inductive PushResult
  | resolvedOk
  | resolvedFailure (f : NavigationFailure)
  | rejected (e : RejErr)
  | outOfFuel
deriving Repr, DecidableEq

/-- An observable side effect of the pipeline, in the order performed:
a guard callback starting, a history push or replace, scroll handling,
an `onError` handler notification, the settlement of a queued `isReady`
promise, and an `afterEach` hook invocation. -/
inductive Effect
  | guardRun (g : Nat)
  | histPush (fullPath : String)
  | histReplace (fullPath : String)
  | scrollHandled (path : String)
  | errorNotified (h : Nat) (e : Nat)
  | readyResolved (h : Nat)
  | readyRejected (h : Nat) (e : Nat)
  | afterEachRun (g : Nat) (failure : Option FailKind)
deriving Repr, DecidableEq

/-- The router environment: the matcher (modelled from the spec, see
`resolveCore`), the eventual outcome of every guard callback, and the
registered global guard and handler lists, each in registration order. -/
structure Env where
  resolveCore : RawInput → LocCore
  outcome : Nat → GuardOutcome
  beforeEach : List Nat := []
  beforeResolve : List Nat := []
  afterEach : List Nat := []
  errorHandlers : List Nat := []

/-- The mutable router state: the committed current location, the token
of the single pending location (the cancellation race token), the record
store (records are mutated by reference in the source), and the readiness
flag and queued `isReady` handlers. -/
structure RouterState where
  currentRoute : RouteLocation := START
  pendingToken : Nat := 0
  recs : List RouteRecordNormalized := []
  ready : Bool := false
  readyHandlers : List Nat := []
  nextToken : Nat := 1
deriving Repr, DecidableEq

/-- Dereferencing a list of record identities against the record store,
keeping order; the source holds object references directly. -/
def getRecords (recs : List RouteRecordNormalized) (rids : List Nat) :
    List RouteRecordNormalized :=
  rids.filterMap (fun rid => recs.find? (fun r => r.rid == rid))

/-- The `extractChangingRecords` helper of the router core: one pass over
`from.matched` separating leaving records (not present by reference in
`to.matched`) from updating records, then one pass over `to.matched`
collecting entering records, each list in the iteration order of its
pass. -/
def extractChangingRecords (toLoc fromLoc : LocCore) :
    List Nat × List Nat × List Nat :=
  (fromLoc.matched.filter (fun record => !toLoc.matched.contains record),
   fromLoc.matched.filter (fun record => toLoc.matched.contains record),
   toLoc.matched.filter (fun record => !fromLoc.matched.contains record))

/-- The three per-component guard names extracted from mounted
components. -/
inductive ComponentGuardKind
  | beforeRouteLeave
  | beforeRouteUpdate
  | beforeRouteEnter
deriving Repr, DecidableEq

/-- Modelled from the spec: `extractComponentsGuards` lives in
`navigationGuards.ts`, which is not under `src/`.  Per the spec it
collects, for every record of the given list in order, the per-component
guards of the requested name registered by that record. -/
def extractComponentsGuards (records : List RouteRecordNormalized)
    (kind : ComponentGuardKind) : List Nat :=
  records.flatMap (fun record =>
    match kind with
    | .beforeRouteLeave => record.beforeRouteLeave
    | .beforeRouteUpdate => record.beforeRouteUpdate
    | .beforeRouteEnter => record.beforeRouteEnter)

/-- Modelled from the spec: `guardToPromiseFn` lives in
`navigationGuards.ts`, which is not under `src/`.  Per the spec guard
contract, running one guard records that the guard started and then
settles: acceptance resolves, returning `false` rejects with an aborted
failure, returning a new target rejects with the internal redirect
signal, and throwing rejects with the unrecognized error. -/
def guardToPromiseFn (env : Env) (g : Nat) : List Effect × Except NavErr Unit :=
  ([Effect.guardRun g],
   match env.outcome g with
   | .accept => Except.ok ()
   | .abort => Except.error NavErr.aborted
   | .redirectTo t => Except.error (NavErr.guardRedirect t)
   | .failWith e => Except.error (NavErr.unknown e))

/-- Promise sequencing (`promise.then(() => next)`): a rejection skips the
continuation, a resolution appends the effects of the continuation. -/
def andThen (x : List Effect × Except NavErr Unit)
    (f : Unit → List Effect × Except NavErr Unit) :
    List Effect × Except NavErr Unit :=
  match x with
  | (eff, Except.ok _) => (eff ++ (f ()).1, (f ()).2)
  | (eff, Except.error e) => (eff, Except.error e)

/-- The `runGuardQueue` helper of the router core:
`guards.reduce((promise, guard) => promise.then(() => guard()), resolve())`
runs the guards strictly one after another, each starting only after the
previous one resolved, and stops at the first rejection. -/
def runGuardQueue (env : Env) : List Nat → List Effect × Except NavErr Unit
  | [] => ([], Except.ok ())
  | g :: gs => andThen (guardToPromiseFn env g) (fun _ => runGuardQueue env gs)

/-- The `navigate` function of the router core: six sequential guard
stages, each a `runGuardQueue` chained with `.then` onto the previous
one.  Stage one combines the per-component `beforeRouteLeave` guards of
the leaving records (reversed) with the registered `leaveGuards` of the
leaving records; the later stages follow the source line by line. -/
def navigate (env : Env) (recs : List RouteRecordNormalized)
    (toLoc fromLoc : RouteLocation) : List Effect × Except NavErr Unit :=
  let changing := extractChangingRecords toLoc.core fromLoc.core
  let leavingRecords := changing.1
  let updatingRecords := changing.2.1
  let stage1 :=
    extractComponentsGuards
      (getRecords recs
        ((fromLoc.core.matched.filter
          (fun record => !toLoc.core.matched.contains record)).reverse))
      ComponentGuardKind.beforeRouteLeave
    ++ (getRecords recs leavingRecords).flatMap (fun record => record.leaveGuards)
  andThen (runGuardQueue env stage1) (fun _ =>
  andThen (runGuardQueue env env.beforeEach) (fun _ =>
  andThen (runGuardQueue env
    (extractComponentsGuards
      (getRecords recs
        (toLoc.core.matched.filter
          (fun record => fromLoc.core.matched.contains record)))
      ComponentGuardKind.beforeRouteUpdate
     ++ (getRecords recs updatingRecords).flatMap (fun record => record.updateGuards)))
    (fun _ =>
  andThen (runGuardQueue env
    ((getRecords recs toLoc.core.matched).flatMap (fun record =>
      match record.beforeEnter with
      | some be =>
        if !fromLoc.core.matched.contains record.rid then
          match be with
          | .one g => [g]
          | .many gs => gs
        else []
      | none => [])))
    (fun _ =>
  andThen (runGuardQueue env
    (extractComponentsGuards
      (getRecords recs
        (toLoc.core.matched.filter
          (fun record => !fromLoc.core.matched.contains record)))
      ComponentGuardKind.beforeRouteEnter))
    (fun _ =>
  runGuardQueue env env.beforeResolve)))))

/-- Modelled from the spec: `isSameRouteLocation` lives in `location.ts`,
which is not under `src/`.  Per the spec, two locations denote the same
location when they share the same matched leaf record, the same params,
the same query and the same hash. -/
def isSameRouteLocation (a b : LocCore) : Bool :=
  a.matched.getLast? == b.matched.getLast?
    && a.params == b.params && a.query == b.query && a.hash == b.hash

/-- Modelled from the spec: the matcher (`createRouterMatcher`,
`parseURL`, `stringifyURL`) is not under `src/`.  The router `resolve`
maps a raw target to a matched location through the route table
(`env.resolveCore`), allocates a fresh location object (a fresh identity
token) and sets `redirectedFrom` to `undefined`. -/
def resolveLoc (env : Env) (s : RouterState) (raw : RawInput) :
    RouteLocation × RouterState :=
  ({ core := env.resolveCore raw, token := s.nextToken, redirectedFrom := none },
   { s with nextToken := s.nextToken + 1 })

/-- The `markAsReady` function of the router core: a no-op once `ready`
is set; otherwise it sets `ready`, settles every queued `isReady`
handler (rejecting when called with an error) and resets the queue. -/
def markAsReady (s : RouterState) (err : Option Nat) : RouterState × List Effect :=
  if s.ready then (s, [])
  else
    ({ s with ready := true, readyHandlers := [] },
     s.readyHandlers.map (fun h =>
       match err with
       | some e => Effect.readyRejected h e
       | none => Effect.readyResolved h))

/-- The `isReady` function of the router core: resolves immediately when
the router is marked ready and the current location is no longer the
start sentinel; otherwise the caller is queued.  The boolean result
records whether the returned promise resolved immediately. -/
def isReady (s : RouterState) (h : Nat) : RouterState × Bool :=
  if s.ready && s.currentRoute.token != 0 then (s, true)
  else ({ s with readyHandlers := s.readyHandlers ++ [h] }, false)

/-- The `triggerError` function of the router core: marks the router
ready with the error, notifies every registered `onError` handler, and
returns the error as a rejection. -/
def triggerError (env : Env) (s : RouterState) (e : Nat) :
    RouterState × List Effect :=
  ((markAsReady s (some e)).1,
   (markAsReady s (some e)).2
     ++ env.errorHandlers.map (fun h => Effect.errorNotified h e))

/-- The `triggerAfterEach` function of the router core: calls every
registered `afterEach` hook with the outcome of the navigation. -/
def triggerAfterEach (env : Env) (failure : Option NavigationFailure) :
    List Effect :=
  env.afterEach.map (fun g => Effect.afterEachRun g (failure.map (fun f => f.kind)))

/-- The `finalizeNavigation` function of the router core: it first
re-checks the pending location token and resolves `NAVIGATION_CANCELLED`
without any further action on mismatch; otherwise it clears `leaveGuards`
and resets `instances` on every leaving record, writes the history entry
(`replace` when requested or on the first navigation, `push` otherwise),
commits the new current location, handles scrolling and marks the router
ready. -/
def finalizeNavigation (s : RouterState) (toLocation fromLoc : RouteLocation)
    (isPush repl : Bool) : RouterState × List Effect × Option NavigationFailure :=
  if s.pendingToken != toLocation.token then
    (s, [], some ⟨FailKind.cancelled, toLocation.core.fullPath, fromLoc.core.fullPath⟩)
  else
    let leavingRecords := (extractChangingRecords toLocation.core fromLoc.core).1
    let recs2 := s.recs.map (fun record =>
      if leavingRecords.contains record.rid then
        { record with leaveGuards := [], instances := [] }
      else record)
    let isFirstNavigation := fromLoc.token == 0
    let histEff :=
      if isPush then
        if repl || isFirstNavigation then [Effect.histReplace toLocation.core.fullPath]
        else [Effect.histPush toLocation.core.fullPath]
      else []
    let s2 := { s with recs := recs2, currentRoute := toLocation }
    let ready := markAsReady s2 none
    (ready.1,
     histEff ++ [Effect.scrollHandled toLocation.core.path] ++ ready.2,
     none)

/-- Looking up the `redirect` property of the last matched record of a
resolved target (`targetLocation.matched[targetLocation.matched.length - 1]`). -/
def recordRedirect (recs : List RouteRecordNormalized) (core : LocCore) :
    Option RawLoc :=
  (core.matched.getLast?.bind (fun rid => recs.find? (fun r => r.rid == rid))).bind
    (fun r => r.redirect)

/-- The spread `{ ...targetLocation, ...newTargetLocation, state, force,
replace }` building the raw target of a record redirect: keys present on
the redirect object override the resolved target, the navigation options
are carried over. -/
def mergeRedirectTarget (target : RouteLocation) (nt : RawLoc)
    (data : Option Nat) (force repl : Bool) : RawLoc :=
  { path := nt.path <|> some target.core.path,
    name := nt.name <|> target.core.name,
    params := nt.params <|> some target.core.params,
    query := nt.query <|> some target.core.query,
    hash := nt.hash <|> some target.core.hash,
    state := data, force := force, replace := repl }

/-- The type of the recursive `pushWithRedirect` continuation passed to
the post-navigation handlers. -/
abbrev PushFn :=
  RouterState → RawInput → Option MatchedTarget →
    RouterState × List Effect × PushResult

/-- The `.then` continuation of `pushWithRedirect`: a guard-redirect
failure restarts `pushWithRedirect` with the redirect target (keeping the
`state`, `force` and `replace` options and preserving an already-set
`redirectedFrom`); any other failure is announced to `afterEach` and
resolved; with no failure the navigation is finalized and its outcome
announced and resolved. -/
def afterNavigateThenWith (push : PushFn) (env : Env) (s : RouterState)
    (toLocation fromLoc : RouteLocation) (data : Option Nat) (force repl : Bool)
    (redirectedFrom : Option MatchedTarget) (failure : Option NavigationFailure) :
    RouterState × List Effect × PushResult :=
  match failure with
  | some f =>
    match f.kind with
    | FailKind.guardRedirect t =>
      push s (.obj { locationAsObject t with state := data, force := force, replace := repl })
        (some (redirectedFrom.getD toLocation.toTarget))
    | _ => (s, triggerAfterEach env (some f), PushResult.resolvedFailure f)
  | none =>
    let fin := finalizeNavigation s toLocation fromLoc true repl
    let aeEff := triggerAfterEach env fin.2.2
    match fin.2.2 with
    | some f2 => (fin.1, fin.2.1 ++ aeEff, PushResult.resolvedFailure f2)
    | none => (fin.1, fin.2.1 ++ aeEff, PushResult.resolvedOk)

/-- The `.catch` handler of `pushWithRedirect` composed with the `.then`
continuation: on rejection it first re-checks the pending token and turns
any rejection of a superseded navigation into `NAVIGATION_CANCELLED`;
an aborted or redirect rejection becomes the resolved failure value; an
unrecognized error goes to `triggerError` and rejects, skipping the
continuation. -/
def afterNavigateWith (push : PushFn) (env : Env) (s : RouterState)
    (toLocation fromLoc : RouteLocation) (data : Option Nat) (force repl : Bool)
    (redirectedFrom : Option MatchedTarget) (navRes : Except NavErr Unit) :
    RouterState × List Effect × PushResult :=
  match navRes with
  | Except.ok _ =>
    afterNavigateThenWith push env s toLocation fromLoc data force repl redirectedFrom none
  | Except.error err =>
    if s.pendingToken != toLocation.token then
      afterNavigateThenWith push env s toLocation fromLoc data force repl redirectedFrom
        (some ⟨FailKind.cancelled, toLocation.core.fullPath, fromLoc.core.fullPath⟩)
    else
      match err with
      | NavErr.aborted =>
        afterNavigateThenWith push env s toLocation fromLoc data force repl redirectedFrom
          (some ⟨FailKind.aborted, toLocation.core.fullPath, fromLoc.core.fullPath⟩)
      | NavErr.guardRedirect t =>
        afterNavigateThenWith push env s toLocation fromLoc data force repl redirectedFrom
          (some ⟨FailKind.guardRedirect t, toLocation.core.fullPath, fromLoc.core.fullPath⟩)
      | NavErr.unknown e =>
        ((triggerError env s e).1, (triggerError env s e).2,
         PushResult.rejected (RejErr.unknown e))

/-- The `pushWithRedirect` function of the router core, with a fuel bound
on the redirect recursion: resolve the target and publish it as the
pending location; follow a record `redirect` (rejecting a redirect target
with neither `path` nor `name`, preserving an already-set
`redirectedFrom`); short-circuit a same-location non-forced navigation to
`NAVIGATION_DUPLICATED`, still handling the scroll; otherwise run
`navigate` and hand its settlement to the catch and then handlers. -/
def pushWithRedirect (env : Env) :
    Nat → RouterState → RawInput → Option MatchedTarget →
      RouterState × List Effect × PushResult
  | 0, s, _, _ => (s, [], PushResult.outOfFuel)
  | fuel + 1, s0, raw, redirectedFrom =>
    let rl := resolveLoc env s0 raw
    let targetLocation := rl.1
    let s := { rl.2 with pendingToken := targetLocation.token }
    let fromLoc := s.currentRoute
    let data := raw.stateOf
    let force := raw.forceOf
    let repl := raw.replaceOf
    match recordRedirect s.recs targetLocation.core with
    | some redirect =>
      if redirect.path.isNone && redirect.name.isNone then
        (s, [], PushResult.rejected RejErr.invalidRedirect)
      else
        pushWithRedirect env fuel s
          (.obj (mergeRedirectTarget targetLocation redirect data force repl))
          (some (redirectedFrom.getD targetLocation.toTarget))
    | none =>
      let toLocation : RouteLocation := { targetLocation with redirectedFrom := redirectedFrom }
      if !force && isSameRouteLocation fromLoc.core toLocation.core then
        let f : NavigationFailure :=
          ⟨FailKind.duplicated, toLocation.core.fullPath, fromLoc.core.fullPath⟩
        let out := afterNavigateThenWith (fun a b c => pushWithRedirect env fuel a b c)
          env s toLocation fromLoc data force repl redirectedFrom (some f)
        (out.1, Effect.scrollHandled fromLoc.core.path :: out.2.1, out.2.2)
      else
        let nav := navigate env s.recs toLocation fromLoc
        let out := afterNavigateWith (fun a b c => pushWithRedirect env fuel a b c)
          env s toLocation fromLoc data force repl redirectedFrom nav.2
        (out.1, nav.1 ++ out.2.1, out.2.2)

/-- The router `push`: `pushWithRedirect(to)` with no `redirectedFrom`. -/
def push (env : Env) (fuel : Nat) (s : RouterState) (target : RawInput) :
    RouterState × List Effect × PushResult :=
  pushWithRedirect env fuel s target none

/-- The router `replace`:
`push({ ...locationAsObject(to), replace: true })`. -/
def replace (env : Env) (fuel : Nat) (s : RouterState) (target : RawInput) :
    RouterState × List Effect × PushResult :=
  push env fuel s (.obj { locationAsObject target with replace := true })

/-- The per-record `beforeEnter` guards of one record, array or single
callback, all of them, as the specification words it. -/
def beforeEnterGuards (record : RouteRecordNormalized) : List Nat :=
  match record.beforeEnter with
  | some (.one g) => [g]
  | some (.many gs) => gs
  | none => []

/-- The guard ordering as the specification words it, written from the
spec sentence and not from `navigate`: (1) per-component
`beforeRouteLeave` of the leaving records in reverse order together with
(2) the registered `leaveGuards` of the leaving records, then (3) the
global `beforeEach` guards, then (4) per-component `beforeRouteUpdate`
and (5) registered `updateGuards` of the updating records, then (6) the
per-record `beforeEnter` guards of the entering records only (array or
single callback, all run, skipped for records still matched), then (7)
per-component `beforeRouteEnter` of the entering records, then (8) the
global `beforeResolve` guards.  A stage barrier sits between each of the
six queues below (the spec runs (1)+(2) as one queue and (4)+(5) as one
queue). -/
def specGuardOrder (env : Env) (recs : List RouteRecordNormalized)
    (toLoc fromLoc : RouteLocation) : List Nat :=
  let leaving := fromLoc.core.matched.filter
    (fun record => !toLoc.core.matched.contains record)
  let updating := fromLoc.core.matched.filter
    (fun record => toLoc.core.matched.contains record)
  let entering := toLoc.core.matched.filter
    (fun record => !fromLoc.core.matched.contains record)
  (extractComponentsGuards (getRecords recs leaving.reverse)
      ComponentGuardKind.beforeRouteLeave
    ++ (getRecords recs leaving).flatMap (fun record => record.leaveGuards))
  ++ (env.beforeEach
  ++ ((extractComponentsGuards
        (getRecords recs (toLoc.core.matched.filter
          (fun record => fromLoc.core.matched.contains record)))
        ComponentGuardKind.beforeRouteUpdate
      ++ (getRecords recs updating).flatMap (fun record => record.updateGuards))
  ++ ((getRecords recs entering).flatMap beforeEnterGuards
  ++ (extractComponentsGuards (getRecords recs entering)
        ComponentGuardKind.beforeRouteEnter
  ++ env.beforeResolve))))

/-- A resolver looking a raw target up by its path, for the concrete
route tables of the scenarios below. -/
def resolveByPath (table : String → LocCore) : RawInput → LocCore
  | .str s => table s
  | .obj l =>
    match l.path with
    | some p => table p
    | none => {}

/-- The route table of the cancellation race scenario: `/x` matches
record `101`, `/y` matches record `102`. -/
def tableC2 : String → LocCore := fun p =>
  if p == "/x" then { path := "/x", fullPath := "/x", matched := [101] }
  else if p == "/y" then { path := "/y", fullPath := "/y", matched := [102] }
  else { path := p, fullPath := p }

/-- The environment of the cancellation race scenario: two global
`beforeEach` guards `1` and `2`, both eventually accepting. -/
def envC2 : Env :=
  { resolveCore := resolveByPath tableC2,
    outcome := fun _ => GuardOutcome.accept,
    beforeEach := [1, 2] }

/-- The initial router state of the cancellation race scenario. -/
def stateC2 : RouterState := { recs := [{ rid := 101 }, { rid := 102 }] }

/-- Navigation A of the race scenario: the resolved target for `/x`. -/
def c2toA : RouteLocation := (resolveLoc envC2 stateC2 (.str "/x")).1

/-- The state after navigation A resolved `/x` and published it as the
pending location, at the moment A starts awaiting its first global
guard. -/
def c2s1 : RouterState :=
  { (resolveLoc envC2 stateC2 (.str "/x")).2 with pendingToken := c2toA.token }

/-- Navigation B of the race scenario, run in full to `/y` while
navigation A is suspended awaiting guard `1`. -/
def c2B : RouterState × List Effect × PushResult :=
  pushWithRedirect envC2 4 c2s1 (.str "/y") none

/-- The resumption of navigation A after guard `1` accepted: the rest of
the guard queue of A (guard `2`; every other stage queue of A is empty
in this scenario). -/
def c2resumedA : List Effect × Except NavErr Unit := runGuardQueue envC2 [2]

/-- The continuation of navigation A (catch handler, then handler and
`finalizeNavigation`), running on the state navigation B left behind. -/
def c2A : RouterState × List Effect × PushResult :=
  afterNavigateWith (fun a b c => pushWithRedirect envC2 3 a b c) envC2 c2B.1 c2toA
    START none false false none c2resumedA.2

/-- The route table of the redirect chain scenario: `/a` matches record
`10`, `/b` record `11`, `/c` record `12`. -/
def tableC5 : String → LocCore := fun p =>
  if p == "/a" then { path := "/a", fullPath := "/a", matched := [10] }
  else if p == "/b" then { path := "/b", fullPath := "/b", matched := [11] }
  else if p == "/c" then { path := "/c", fullPath := "/c", matched := [12] }
  else { path := p, fullPath := p }

/-- The environment of the redirect chain scenario. -/
def envC5 : Env :=
  { resolveCore := resolveByPath tableC5, outcome := fun _ => GuardOutcome.accept }

/-- The record store of the redirect chain scenario: record `10`
redirects to `/b`, record `11` redirects to `/c`, record `12` is plain. -/
def stateC5 : RouterState :=
  { recs := [{ rid := 10, redirect := some { path := some "/b" } },
             { rid := 11, redirect := some { path := some "/c" } },
             { rid := 12 }] }

/-- Pushing `/a` through the two-step record redirect chain. -/
def c5out : RouterState × List Effect × PushResult :=
  push envC5 5 stateC5 (.str "/a")

/-- The route table of the invalid redirect scenario, after the warnings
test of the repository: `/` matches record `1`, `/redirect` matches
record `2`. -/
def tableC9 : String → LocCore := fun p =>
  if p == "/" then { path := "/", fullPath := "/", matched := [1] }
  else if p == "/redirect" then
    { path := "/redirect", fullPath := "/redirect", matched := [2] }
  else { path := p, fullPath := p }

/-- The environment of the invalid redirect scenario, with one registered
`onError` handler `7`. -/
def envC9 : Env :=
  { resolveCore := resolveByPath tableC9, outcome := fun _ => GuardOutcome.accept,
    errorHandlers := [7] }

/-- The record store of the invalid redirect scenario: record `2` has a
`redirect` carrying only `params`, hence neither `name` nor `path`. -/
def stateC9 : RouterState :=
  { recs := [{ rid := 1 },
             { rid := 2, redirect := some { params := some [("foo", "f")] } }] }

/-- Pushing `/redirect`, whose record redirect lacks both `name` and
`path`. -/
def c9out : RouterState × List Effect × PushResult :=
  push envC9 3 stateC9 (.str "/redirect")

/-- A leaving record with registered guards of every kind for the
finalization scenario. -/
def c7rec : RouteRecordNormalized :=
  { rid := 31, leaveGuards := [6], updateGuards := [5], instances := [("default", 9)] }

/-- The router state of the finalization scenario with the pending token
matching the committed target. -/
def c7state : RouterState := { recs := [c7rec], pendingToken := 8 }

/-- The committed target of the finalization scenario, matching no
record, so record `31` is leaving. -/
def c7to : RouteLocation := { core := { path := "/", fullPath := "/" }, token := 8 }

/-- The previous location of the finalization scenario, matching record
`31`. -/
def c7from : RouteLocation :=
  { core := { path := "/old", fullPath := "/old", matched := [31] }, token := 2 }

/-- Finalizing the navigation of the finalization scenario. -/
def c7out : RouterState × List Effect × Option NavigationFailure :=
  finalizeNavigation c7state c7to c7from true false

/-- The route table of the push versus replace scenario: `/foo` matches
record `301`. -/
def tableC10 : String → LocCore := fun p =>
  if p == "/foo" then { path := "/foo", fullPath := "/foo", matched := [301] }
  else { path := p, fullPath := p }

/-- The environment of the push versus replace scenario, with one global
`beforeEach` guard `9`. -/
def envC10 : Env :=
  { resolveCore := resolveByPath tableC10, outcome := fun _ => GuardOutcome.accept,
    beforeEach := [9] }

/-- The router state of the push versus replace scenario: the current
location is `/bar` (so this is not the first navigation). -/
def stateC10 : RouterState :=
  { currentRoute := { core := { path := "/bar", fullPath := "/bar", matched := [302] },
                      token := 77 },
    recs := [{ rid := 301 }, { rid := 302 }], nextToken := 78 }

/-- Pushing `/foo` in the push versus replace scenario. -/
def c10push : RouterState × List Effect × PushResult :=
  push envC10 3 stateC10 (.str "/foo")

/-- Replacing with `/foo` in the push versus replace scenario. -/
def c10replace : RouterState × List Effect × PushResult :=
  replace envC10 3 stateC10 (.str "/foo")

/-- The guard events of an effect trace, used to compare the guard
behavior of two navigations. -/
def guardEvents (eff : List Effect) : List Effect :=
  eff.filter (fun e => match e with | Effect.guardRun _ => true | _ => false)

/-- The router state of the duplicated navigation witness: the current
location is `/foo`, the location that will be pushed again. -/
def stateC3 : RouterState :=
  { currentRoute := { core := { path := "/foo", fullPath := "/foo", matched := [301] },
                      token := 50 },
    recs := [{ rid := 301 }], nextToken := 51 }

/-- The settlement discipline of the promise returned by `push` or
`replace`: resolution with no value; resolution with a recoverable
`NavigationFailure` (aborted, cancelled or duplicated — never the
internal redirect signal); rejection with the invalid-redirect
configuration error, which is not handed to `onError`; or rejection with
an unrecognized error that was delivered to every registered `onError`
handler.  Fuel exhaustion stands for a navigation that never settles. -/
def pushSettlement (env : Env) (eff : List Effect) (res : PushResult) : Prop :=
  res = PushResult.resolvedOk
  ∨ (∃ f, res = PushResult.resolvedFailure f
      ∧ (f.kind = FailKind.aborted ∨ f.kind = FailKind.cancelled
          ∨ f.kind = FailKind.duplicated))
  ∨ res = PushResult.rejected RejErr.invalidRedirect
  ∨ (∃ e, res = PushResult.rejected (RejErr.unknown e)
      ∧ ∀ h ∈ env.errorHandlers, Effect.errorNotified h e ∈ eff)
  ∨ res = PushResult.outOfFuel

/-- Sequencing is associative: chaining three promise computations
associates either way. -/
theorem andThen_assoc (a : List Effect × Except NavErr Unit)
    (f g : Unit → List Effect × Except NavErr Unit) :
    andThen (andThen a f) g = andThen a (fun u => andThen (f u) g) := by
  rcases a with ⟨ea, ra⟩
  cases ra with
  | error e => simp [andThen]
  | ok u =>
    cases u
    rcases hf : f () with ⟨ef, rf⟩
    cases rf with
    | error e => simp [andThen, hf]
    | ok v =>
      cases v
      rcases hg : g () with ⟨eg, rg⟩
      simp [andThen, hf, hg, List.append_assoc]

/-- Running a concatenated guard queue is the same as running the first
part and then the second: the barrier between two stages of `navigate`
is the same sequencing as within a stage. -/
theorem runGuardQueue_append (env : Env) (xs ys : List Nat) :
    runGuardQueue env (xs ++ ys)
      = andThen (runGuardQueue env xs) (fun _ => runGuardQueue env ys) := by
  induction xs with
  | nil => simp [runGuardQueue, andThen]
  | cons g gs ih =>
    simp only [List.cons_append, runGuardQueue, List.append_eq] at *
    simp only [ih]
    rw [andThen_assoc]

/-- A record found in the store under an identity carries that
identity. -/
theorem find?_rid (recs : List RouteRecordNormalized) (rid : Nat)
    (record : RouteRecordNormalized)
    (h : recs.find? (fun r => r.rid == rid) = some record) : record.rid = rid := by
  have := List.find?_some h
  simpa using this

/-- Dereferencing a filtered identity list is filtering the dereferenced
records on their identity. -/
theorem getRecords_filter (recs : List RouteRecordNormalized) (p : Nat → Bool)
    (l : List Nat) :
    getRecords recs (l.filter p) = (getRecords recs l).filter (fun r => p r.rid) := by
  induction l with
  | nil => rfl
  | cons x xs ih =>
    by_cases hp : p x
    · rcases hfind : recs.find? (fun r => r.rid == x) with _ | record
      · simp [getRecords, List.filter_cons, hp, hfind] at ih ⊢
        exact ih
      · have hr : record.rid = x := find?_rid recs x record hfind
        simp [getRecords, List.filter_cons, hp, hfind, hr] at ih ⊢
        exact ih
    · rcases hfind : recs.find? (fun r => r.rid == x) with _ | record
      · simp [getRecords, List.filter_cons, hp, hfind] at ih ⊢
        exact ih
      · have hr : record.rid = x := find?_rid recs x record hfind
        simp [getRecords, List.filter_cons, hp, hfind, hr] at ih ⊢
        exact ih

/-- Flat-mapping over a filtered list is flat-mapping a guarded
function. -/
theorem flatMap_filter {α β : Type} (l : List α) (q : α → Bool) (f : α → List β) :
    (l.filter q).flatMap f = l.flatMap (fun x => if q x then f x else []) := by
  induction l with
  | nil => rfl
  | cons x xs ih =>
    by_cases hq : q x
    · simp [List.filter_cons, hq, ih]
    · simp [List.filter_cons, hq, ih]

/-- C1: the guard stages of `navigate` run exactly in the order the
specification mandates.  The left side is the `navigate` pipeline
transcribed from the source; the right side runs the single queue
`specGuardOrder`, written from the words of the specification, under the
sequential-queue semantics of `runGuardQueue` (each guard starts only
after the previous one resolved, an abort, redirect or error stops the
run).  The equality shows both the stage contents and the ordering, and
that a later stage starts only after every guard of the earlier stage
resolved. -/
theorem c1_guard_ordering (env : Env) (recs : List RouteRecordNormalized)
    (toLoc fromLoc : RouteLocation) :
    navigate env recs toLoc fromLoc
      = runGuardQueue env (specGuardOrder env recs toLoc fromLoc) := by
  have h4 : (getRecords recs (toLoc.core.matched.filter
        (fun record => !fromLoc.core.matched.contains record))).flatMap beforeEnterGuards
      = (getRecords recs toLoc.core.matched).flatMap (fun record =>
          match record.beforeEnter with
          | some be =>
            if !fromLoc.core.matched.contains record.rid then
              match be with
              | BeforeEnterGuard.one g => [g]
              | BeforeEnterGuard.many gs => gs
            else []
          | none => []) := by
    rw [getRecords_filter, flatMap_filter]
    congr 1
    funext r
    cases hbe : r.beforeEnter with
    | none => simp [beforeEnterGuards, hbe]
    | some be =>
      cases be <;> by_cases hc : fromLoc.core.matched.contains r.rid <;>
        simp [beforeEnterGuards, hbe, hc]
  simp only [navigate, specGuardOrder, extractChangingRecords, runGuardQueue_append,
    andThen_assoc, h4]

/-- Marking ready never touches the record store. -/
theorem markAsReady_recs (s : RouterState) (err : Option Nat) :
    (markAsReady s err).1.recs = s.recs := by
  unfold markAsReady
  split <;> rfl

/-- Marking ready never touches the current route. -/
theorem markAsReady_currentRoute (s : RouterState) (err : Option Nat) :
    (markAsReady s err).1.currentRoute = s.currentRoute := by
  unfold markAsReady
  split <;> rfl

/-- Finalization of a superseded navigation: when the pending token no
longer matches the target, `finalizeNavigation` returns the cancelled
failure, performs no effect and leaves the state untouched. -/
theorem finalize_superseded (s : RouterState) (toLoc fromLoc : RouteLocation)
    (isPush repl : Bool) (h : s.pendingToken ≠ toLoc.token) :
    finalizeNavigation s toLoc fromLoc isPush repl
      = (s, [], some ⟨FailKind.cancelled, toLoc.core.fullPath, fromLoc.core.fullPath⟩) := by
  simp [finalizeNavigation, h]

/-- Finalization of the authoritative navigation: when the pending token
matches, `finalizeNavigation` commits the target as the current route,
reports no failure, and rewrites the record store by clearing
`leaveGuards` and `instances` on exactly the leaving records. -/
theorem finalize_matching (s : RouterState) (toLoc fromLoc : RouteLocation)
    (isPush repl : Bool) (h : s.pendingToken = toLoc.token) :
    (finalizeNavigation s toLoc fromLoc isPush repl).2.2 = none
    ∧ (finalizeNavigation s toLoc fromLoc isPush repl).1.currentRoute = toLoc
    ∧ (finalizeNavigation s toLoc fromLoc isPush repl).1.recs
        = s.recs.map (fun record =>
            if ((extractChangingRecords toLoc.core fromLoc.core).1).contains record.rid then
              { record with leaveGuards := [], instances := [] }
            else record) := by
  refine ⟨?_, ?_, ?_⟩ <;>
    simp [finalizeNavigation, h, markAsReady_currentRoute, markAsReady_recs]

/-- C4 counterexample: on the concrete chains `to.matched = []` and
`from.matched = [1, 2]` the leaving list computed by
`extractChangingRecords` is `[1, 2]`, the root-to-leaf iteration order of
`from.matched`, and not the reverse leaf-to-root order `[2, 1]` the claim
states. -/
theorem c4_leaving_order_counterexample :
    (extractChangingRecords { matched := [] } { matched := [1, 2] }).1 = [1, 2]
    ∧ ¬ ((extractChangingRecords { matched := [] } { matched := [1, 2] }).1
        = (({ matched := [1, 2] } : LocCore).matched.filter
            (fun record => !({ matched := [] } : LocCore).matched.contains record)).reverse) := by
  decide

/-- C4 (amended): `extractChangingRecords` returns leaving = the records
of `from.matched` not present by reference identity in `to.matched`, in
root-to-leaf (`from.matched` iteration) order, not reversed; updating =
the records present in both chains; entering = the records of
`to.matched` not present in `from.matched`, in root-to-leaf order;
together the three lists partition the union of the two chains. -/
theorem c4_changing_records (toLoc fromLoc : LocCore) :
    (extractChangingRecords toLoc fromLoc).1
        = fromLoc.matched.filter (fun record => !toLoc.matched.contains record)
    ∧ (extractChangingRecords toLoc fromLoc).2.1
        = fromLoc.matched.filter (fun record => toLoc.matched.contains record)
    ∧ (extractChangingRecords toLoc fromLoc).2.2
        = toLoc.matched.filter (fun record => !fromLoc.matched.contains record)
    ∧ (∀ r, r ∈ (extractChangingRecords toLoc fromLoc).1
        ↔ r ∈ fromLoc.matched ∧ r ∉ toLoc.matched)
    ∧ (∀ r, r ∈ (extractChangingRecords toLoc fromLoc).2.1
        ↔ r ∈ fromLoc.matched ∧ r ∈ toLoc.matched)
    ∧ (∀ r, r ∈ (extractChangingRecords toLoc fromLoc).2.2
        ↔ r ∈ toLoc.matched ∧ r ∉ fromLoc.matched)
    ∧ (∀ r, (r ∈ fromLoc.matched ∨ r ∈ toLoc.matched)
        ↔ (r ∈ (extractChangingRecords toLoc fromLoc).1
            ∨ r ∈ (extractChangingRecords toLoc fromLoc).2.1
            ∨ r ∈ (extractChangingRecords toLoc fromLoc).2.2))
    ∧ (∀ r, ¬ (r ∈ (extractChangingRecords toLoc fromLoc).1
            ∧ r ∈ (extractChangingRecords toLoc fromLoc).2.1))
    ∧ (∀ r, ¬ (r ∈ (extractChangingRecords toLoc fromLoc).1
            ∧ r ∈ (extractChangingRecords toLoc fromLoc).2.2))
    ∧ (∀ r, ¬ (r ∈ (extractChangingRecords toLoc fromLoc).2.1
            ∧ r ∈ (extractChangingRecords toLoc fromLoc).2.2)) := by
  refine ⟨rfl, rfl, rfl, ?_, ?_, ?_, ?_, ?_, ?_, ?_⟩ <;>
    intro r <;> simp [extractChangingRecords, List.mem_filter] <;> tauto

/-- C4 witness: the partition theorem applied to the concrete chains of
the counterexample input. -/
theorem c4_changing_records_witness :
    (extractChangingRecords { matched := [] } { matched := [1, 2] }).1
        = (({ matched := [1, 2] } : LocCore).matched.filter
            (fun record => !({ matched := [] } : LocCore).matched.contains record)) :=
  (c4_changing_records { matched := [] } { matched := [1, 2] }).1

/-- C7 counterexample: in the finalization scenario, record `31` is a
leaving record carrying the registered update guard `5`; after
`finalizeNavigation` commits, its `leaveGuards` and `instances` are reset
but its `updateGuards` still hold `[5]`: the claim that the
`updateGuards` of leaving records are cleared is false. -/
theorem c7_update_guards_counterexample :
    (extractChangingRecords c7to.core c7from.core).1 = [31]
    ∧ c7out.2.2 = none
    ∧ c7out.1.recs
        = [{ rid := 31, leaveGuards := [], updateGuards := [5], instances := [] }]
    ∧ ¬ (c7out.1.recs.map (fun record => record.updateGuards) = [[]]) := by
  decide

/-- C7 (amended): when a navigation commits (the pending token still
matches), every leaving record has its `leaveGuards` cleared and its
`instances` map reset to empty while its `updateGuards` are left
unchanged, and every record that is not leaving is left entirely
unchanged. -/
theorem c7_finalize_clears (s : RouterState) (toLoc fromLoc : RouteLocation)
    (isPush repl : Bool) (h : s.pendingToken = toLoc.token) :
    (finalizeNavigation s toLoc fromLoc isPush repl).1.recs
      = s.recs.map (fun record =>
          if ((extractChangingRecords toLoc.core fromLoc.core).1).contains record.rid then
            { record with leaveGuards := [], instances := [] }
          else record)
    ∧ (∀ record ∈ s.recs,
        ((extractChangingRecords toLoc.core fromLoc.core).1).contains record.rid = true →
          { record with leaveGuards := ([] : List Nat), instances := ([] : List (String × Nat)) }
            ∈ (finalizeNavigation s toLoc fromLoc isPush repl).1.recs)
    ∧ (∀ record ∈ s.recs,
        ((extractChangingRecords toLoc.core fromLoc.core).1).contains record.rid = false →
          record ∈ (finalizeNavigation s toLoc fromLoc isPush repl).1.recs) := by
  obtain ⟨-, -, hrecs⟩ := finalize_matching s toLoc fromLoc isPush repl h
  refine ⟨hrecs, ?_, ?_⟩
  · intro record hmem hleave
    rw [hrecs]
    refine List.mem_map.mpr ⟨record, hmem, ?_⟩
    have hl2 : record.rid ∈ (extractChangingRecords toLoc.core fromLoc.core).1 := by
      simpa using hleave
    simp [hl2]
  · intro record hmem hstay
    rw [hrecs]
    refine List.mem_map.mpr ⟨record, hmem, ?_⟩
    have hs2 : record.rid ∉ (extractChangingRecords toLoc.core fromLoc.core).1 := by
      simpa using hstay
    simp [hs2]

/-- C7 witness: the amended theorem applied to the finalization
scenario. -/
theorem c7_finalize_clears_witness :
    c7out.1.recs
      = c7state.recs.map (fun record =>
          if ((extractChangingRecords c7to.core c7from.core).1).contains record.rid then
            { record with leaveGuards := [], instances := [] }
          else record) :=
  (c7_finalize_clears c7state c7to c7from true false rfl).1

/-- C2 counterexample: in the race scenario navigation A to `/x` is
suspended awaiting global guard `1` when navigation B to `/y` starts and
commits.  A nevertheless runs its remaining guard `2` after resuming
(the source checks the pending token only in the rejection handler and in
`finalizeNavigation`, not between stages), and only then settles as
`NAVIGATION_CANCELLED`: the clause that a superseded navigation settles
without running its remaining guards is false. -/
theorem c2_remaining_guard_runs :
    c2A.2.2 = PushResult.resolvedFailure ⟨FailKind.cancelled, "/x", "/"⟩
    ∧ c2resumedA.1 = [Effect.guardRun 2]
    ∧ c2resumedA.2 = Except.ok ()
    ∧ c2B.2.2 = PushResult.resolvedOk
    ∧ c2B.2.1 = [Effect.guardRun 1, Effect.guardRun 2,
        Effect.histReplace "/y", Effect.scrollHandled "/y"]
    ∧ navigate envC2 c2B.1.recs c2toA START
        = ([Effect.guardRun 1, Effect.guardRun 2], Except.ok ())
    ∧ c2A.1.currentRoute.core.fullPath = "/y" := by
  decide

/-- C2 (amended): a navigation superseded while awaiting a guard settles
as `NAVIGATION_CANCELLED` without committing (no history write, no state
change) and without reverting the already-applied history state, while
the newer navigation commits normally; its remaining guards may still
run before the cancellation is detected, because `finalizeNavigation`
re-checks the pending token immediately before committing and returns
the cancelled failure on mismatch.  The first conjunct is the general
finalization re-check; the rest is the race scenario: A to `/x` settles
cancelled with no effects of its own after resuming, B to `/y` resolves
with no value, and the final current location is `/y`. -/
theorem c2_cancellation (s : RouterState) (toLoc fromLoc : RouteLocation)
    (isPush repl : Bool) (h : s.pendingToken ≠ toLoc.token) :
    finalizeNavigation s toLoc fromLoc isPush repl
      = (s, [], some ⟨FailKind.cancelled, toLoc.core.fullPath, fromLoc.core.fullPath⟩)
    ∧ c2A.2.2 = PushResult.resolvedFailure ⟨FailKind.cancelled, "/x", "/"⟩
    ∧ c2A.2.1 = []
    ∧ c2A.1 = c2B.1
    ∧ c2B.2.2 = PushResult.resolvedOk
    ∧ c2B.2.1 = [Effect.guardRun 1, Effect.guardRun 2,
        Effect.histReplace "/y", Effect.scrollHandled "/y"]
    ∧ c2A.1.currentRoute.core.fullPath = "/y" := by
  refine ⟨finalize_superseded s toLoc fromLoc isPush repl h, ?_, ?_, ?_, ?_, ?_, ?_⟩ <;>
    decide

/-- C2 witness: the amended theorem applied at the state navigation B
left behind and the target of navigation A, whose tokens differ. -/
theorem c2_cancellation_witness :
    finalizeNavigation c2B.1 c2toA START true false
      = (c2B.1, [], some ⟨FailKind.cancelled, "/x", "/"⟩) :=
  (c2_cancellation c2B.1 c2toA START true false (by decide)).1

/-- C9: a record redirect whose computed target carries neither `name`
nor `path` makes `pushWithRedirect` reject immediately with the
`Invalid redirect` configuration error: no guard runs, no effect at all
is performed (in particular the error is not handed to the `onError`
handlers and is not a `NavigationFailure`), no commit happens and the
current location and record store are untouched. -/
theorem c9_invalid_redirect (env : Env) (fuel : Nat) (s : RouterState)
    (raw : RawInput) (rf : Option MatchedTarget) (rd : RawLoc)
    (h1 : recordRedirect s.recs (env.resolveCore raw) = some rd)
    (h2 : rd.path = none) (h3 : rd.name = none) :
    pushWithRedirect env (fuel + 1) s raw rf
      = ({ s with pendingToken := s.nextToken, nextToken := s.nextToken + 1 },
         [], PushResult.rejected RejErr.invalidRedirect)
    ∧ (pushWithRedirect env (fuel + 1) s raw rf).1.currentRoute = s.currentRoute
    ∧ (pushWithRedirect env (fuel + 1) s raw rf).1.recs = s.recs
    ∧ (pushWithRedirect env (fuel + 1) s raw rf).2.1 = [] := by
  have heq : pushWithRedirect env (fuel + 1) s raw rf
      = ({ s with pendingToken := s.nextToken, nextToken := s.nextToken + 1 },
         [], PushResult.rejected RejErr.invalidRedirect) := by
    simp [pushWithRedirect, resolveLoc, h1, h2, h3]
  refine ⟨heq, ?_, ?_, ?_⟩ <;> rw [heq]

/-- C9 witness: pushing `/redirect` of the warnings scenario, whose
record redirect carries only `params`. -/
theorem c9_invalid_redirect_witness :
    pushWithRedirect envC9 3 stateC9 (.str "/redirect") none
      = ({ stateC9 with pendingToken := stateC9.nextToken, nextToken := stateC9.nextToken + 1 },
         [], PushResult.rejected RejErr.invalidRedirect) :=
  (c9_invalid_redirect envC9 2 stateC9 (.str "/redirect") none
    { params := some [("foo", "f")] } (by decide) rfl rfl).1

/-- C3: a push or replace whose resolved target (with no record redirect)
denotes the same location as the current one, without `force`, resolves
with the `NAVIGATION_DUPLICATED` failure after performing only the
in-place scroll handling and the `afterEach` announcement: no guard of
any stage runs, no history write happens, and the current location and
record store are unchanged. -/
theorem c3_duplicated_short_circuit (env : Env) (fuel : Nat) (s : RouterState)
    (raw : RawInput) (rf : Option MatchedTarget)
    (h1 : recordRedirect s.recs (env.resolveCore raw) = none)
    (h2 : raw.forceOf = false)
    (h3 : isSameRouteLocation s.currentRoute.core (env.resolveCore raw) = true) :
    pushWithRedirect env (fuel + 1) s raw rf
      = ({ s with pendingToken := s.nextToken, nextToken := s.nextToken + 1 },
         Effect.scrollHandled s.currentRoute.core.path
           :: triggerAfterEach env (some ⟨FailKind.duplicated,
                (env.resolveCore raw).fullPath, s.currentRoute.core.fullPath⟩),
         PushResult.resolvedFailure ⟨FailKind.duplicated,
           (env.resolveCore raw).fullPath, s.currentRoute.core.fullPath⟩)
    ∧ (∀ g, Effect.guardRun g ∉ (pushWithRedirect env (fuel + 1) s raw rf).2.1)
    ∧ (∀ p, Effect.histPush p ∉ (pushWithRedirect env (fuel + 1) s raw rf).2.1)
    ∧ (∀ p, Effect.histReplace p ∉ (pushWithRedirect env (fuel + 1) s raw rf).2.1)
    ∧ Effect.scrollHandled s.currentRoute.core.path
        ∈ (pushWithRedirect env (fuel + 1) s raw rf).2.1
    ∧ (pushWithRedirect env (fuel + 1) s raw rf).1.currentRoute = s.currentRoute
    ∧ (pushWithRedirect env (fuel + 1) s raw rf).1.recs = s.recs := by
  have heq : pushWithRedirect env (fuel + 1) s raw rf
      = ({ s with pendingToken := s.nextToken, nextToken := s.nextToken + 1 },
         Effect.scrollHandled s.currentRoute.core.path
           :: triggerAfterEach env (some ⟨FailKind.duplicated,
                (env.resolveCore raw).fullPath, s.currentRoute.core.fullPath⟩),
         PushResult.resolvedFailure ⟨FailKind.duplicated,
           (env.resolveCore raw).fullPath, s.currentRoute.core.fullPath⟩) := by
    simp [pushWithRedirect, resolveLoc, h1, h2, h3, afterNavigateThenWith]
  refine ⟨heq, ?_, ?_, ?_, ?_, ?_, ?_⟩ <;> rw [heq] <;>
    simp [triggerAfterEach]

/-- C3 witness: pushing `/foo` while the current location already is
`/foo`, in the push versus replace route table. -/
theorem c3_duplicated_short_circuit_witness :
    pushWithRedirect envC10 3 stateC3 (.str "/foo") none
      = ({ stateC3 with pendingToken := stateC3.nextToken, nextToken := stateC3.nextToken + 1 },
         Effect.scrollHandled stateC3.currentRoute.core.path
           :: triggerAfterEach envC10 (some ⟨FailKind.duplicated,
                (envC10.resolveCore (.str "/foo")).fullPath,
                stateC3.currentRoute.core.fullPath⟩),
         PushResult.resolvedFailure ⟨FailKind.duplicated,
           (envC10.resolveCore (.str "/foo")).fullPath,
           stateC3.currentRoute.core.fullPath⟩) :=
  (c3_duplicated_short_circuit envC10 2 stateC3 (.str "/foo") none
    (by decide) rfl (by decide)).1

/-- C8: readiness of the router.  `isReady` resolves immediately exactly
when the router is marked ready with a committed (non-start) current
location and otherwise queues the caller; the first `markAsReady` with no
error resolves every queued handler, the first `markAsReady` with an
error rejects them; marking takes effect at most once, so a later
navigation never re-settles an already settled `isReady` promise; and an
unrecognized error raised by a guard of the authoritative navigation
while the router is not yet ready rejects the queued handlers and rejects
the push promise. -/
theorem c8_ready :
    (∀ s h, s.ready = true → s.currentRoute.token ≠ 0 → isReady s h = (s, true))
    ∧ (∀ s h, s.ready = false →
        isReady s h = ({ s with readyHandlers := s.readyHandlers ++ [h] }, false))
    ∧ (∀ s h, s.currentRoute.token = 0 →
        isReady s h = ({ s with readyHandlers := s.readyHandlers ++ [h] }, false))
    ∧ (∀ s, s.ready = false →
        markAsReady s none
          = ({ s with ready := true, readyHandlers := [] },
             s.readyHandlers.map Effect.readyResolved))
    ∧ (∀ s e, s.ready = false →
        markAsReady s (some e)
          = ({ s with ready := true, readyHandlers := [] },
             s.readyHandlers.map (fun h => Effect.readyRejected h e)))
    ∧ (∀ s err, s.ready = true → markAsReady s err = (s, []))
    ∧ (∀ (pushFn : PushFn) (env : Env) (s : RouterState)
        (toLoc fromLoc : RouteLocation) (data : Option Nat) (force repl : Bool)
        (rf : Option MatchedTarget) (e : Nat),
        s.pendingToken = toLoc.token → s.ready = false →
          afterNavigateWith pushFn env s toLoc fromLoc data force repl rf
              (Except.error (NavErr.unknown e))
            = ({ s with ready := true, readyHandlers := [] },
               s.readyHandlers.map (fun h => Effect.readyRejected h e)
                 ++ env.errorHandlers.map (fun h => Effect.errorNotified h e),
               PushResult.rejected (RejErr.unknown e))) := by
  refine ⟨?_, ?_, ?_, ?_, ?_, ?_, ?_⟩
  · intro s h hr ht
    simp [isReady, hr, ht]
  · intro s h hr
    simp [isReady, hr]
  · intro s h ht
    simp [isReady, ht]
  · intro s hr
    simp [markAsReady, hr]
  · intro s e hr
    simp [markAsReady, hr]
  · intro s err hr
    simp [markAsReady, hr]
  · intro pushFn env s toLoc fromLoc data force repl rf e hp hr
    simp [afterNavigateWith, triggerError, markAsReady, hp, hr]

/-- C8 witness: the immediate-resolution clause applied to a ready router
with a committed current location. -/
theorem c8_ready_witness :
    isReady { ready := true, currentRoute := c7to } 5
      = ({ ready := true, currentRoute := c7to }, true) :=
  c8_ready.1 { ready := true, currentRoute := c7to } 5 rfl (by decide)

/-- C10: `replace` is definitionally `push` of the same target in object
form with the `replace` flag set, so the two produce the same promise,
run the same guards and commit the same location.  The remaining
conjuncts contrast a plain push and a replace of `/foo` from `/bar` in
the concrete scenario: identical guard events, identical committed
location and identical result, differing only in the history write
(`push` versus `replace`). -/
theorem c10_replace_is_push (env : Env) (fuel : Nat) (s : RouterState)
    (target : RawInput) :
    replace env fuel s target
      = push env fuel s (.obj { locationAsObject target with replace := true })
    ∧ guardEvents c10replace.2.1 = guardEvents c10push.2.1
    ∧ c10replace.1.currentRoute.core = c10push.1.currentRoute.core
    ∧ c10push.2.1 = [Effect.guardRun 9, Effect.histPush "/foo", Effect.scrollHandled "/foo"]
    ∧ c10replace.2.1
        = [Effect.guardRun 9, Effect.histReplace "/foo", Effect.scrollHandled "/foo"]
    ∧ c10push.2.2 = PushResult.resolvedOk
    ∧ c10replace.2.2 = PushResult.resolvedOk :=
  ⟨rfl, by decide, by decide, by decide, by decide, by decide, by decide⟩

/-- One step of `pushWithRedirect` through an invalid record redirect:
immediate rejection. -/
theorem pushWithRedirect_invalid (env : Env) (fuel : Nat) (s : RouterState)
    (raw : RawInput) (rf : Option MatchedTarget) (rd : RawLoc)
    (h : recordRedirect s.recs (env.resolveCore raw) = some rd)
    (hinv : (rd.path.isNone && rd.name.isNone) = true) :
    pushWithRedirect env (fuel + 1) s raw rf
      = ({ s with pendingToken := s.nextToken, nextToken := s.nextToken + 1 },
         [], PushResult.rejected RejErr.invalidRedirect) := by
  simp [pushWithRedirect, resolveLoc, h, hinv]

/-- One step of `pushWithRedirect` through a valid record redirect: the
resolution restarts against the merged target with the same `state`,
`force` and `replace` options, preserving an already-set
`redirectedFrom` and otherwise pointing it at the original target. -/
theorem pushWithRedirect_redirect (env : Env) (fuel : Nat) (s : RouterState)
    (raw : RawInput) (rf : Option MatchedTarget) (rd : RawLoc)
    (h : recordRedirect s.recs (env.resolveCore raw) = some rd)
    (hvalid : (rd.path.isNone && rd.name.isNone) = false) :
    pushWithRedirect env (fuel + 1) s raw rf
      = pushWithRedirect env fuel
          { s with pendingToken := s.nextToken, nextToken := s.nextToken + 1 }
          (.obj (mergeRedirectTarget
            { core := env.resolveCore raw, token := s.nextToken, redirectedFrom := none }
            rd raw.stateOf raw.forceOf raw.replaceOf))
          (some (rf.getD
            ⟨env.resolveCore raw, s.nextToken⟩)) := by
  simp [pushWithRedirect, resolveLoc, h, hvalid, RouteLocation.toTarget]

/-- One step of `pushWithRedirect` into the duplicated-navigation
branch. -/
theorem pushWithRedirect_dup (env : Env) (fuel : Nat) (s : RouterState)
    (raw : RawInput) (rf : Option MatchedTarget)
    (h : recordRedirect s.recs (env.resolveCore raw) = none)
    (hdup : (!raw.forceOf
        && isSameRouteLocation s.currentRoute.core (env.resolveCore raw)) = true) :
    pushWithRedirect env (fuel + 1) s raw rf
      = ((afterNavigateThenWith (fun a b c => pushWithRedirect env fuel a b c) env
            { s with pendingToken := s.nextToken, nextToken := s.nextToken + 1 }
            { core := env.resolveCore raw, token := s.nextToken, redirectedFrom := rf }
            s.currentRoute raw.stateOf raw.forceOf raw.replaceOf rf
            (some ⟨FailKind.duplicated, (env.resolveCore raw).fullPath,
              s.currentRoute.core.fullPath⟩)).1,
         Effect.scrollHandled s.currentRoute.core.path
           :: (afterNavigateThenWith (fun a b c => pushWithRedirect env fuel a b c) env
            { s with pendingToken := s.nextToken, nextToken := s.nextToken + 1 }
            { core := env.resolveCore raw, token := s.nextToken, redirectedFrom := rf }
            s.currentRoute raw.stateOf raw.forceOf raw.replaceOf rf
            (some ⟨FailKind.duplicated, (env.resolveCore raw).fullPath,
              s.currentRoute.core.fullPath⟩)).2.1,
         (afterNavigateThenWith (fun a b c => pushWithRedirect env fuel a b c) env
            { s with pendingToken := s.nextToken, nextToken := s.nextToken + 1 }
            { core := env.resolveCore raw, token := s.nextToken, redirectedFrom := rf }
            s.currentRoute raw.stateOf raw.forceOf raw.replaceOf rf
            (some ⟨FailKind.duplicated, (env.resolveCore raw).fullPath,
              s.currentRoute.core.fullPath⟩)).2.2) := by
  simp [pushWithRedirect, resolveLoc, h, hdup]

/-- One step of `pushWithRedirect` into the guard pipeline branch. -/
theorem pushWithRedirect_nav (env : Env) (fuel : Nat) (s : RouterState)
    (raw : RawInput) (rf : Option MatchedTarget)
    (h : recordRedirect s.recs (env.resolveCore raw) = none)
    (hdup : (!raw.forceOf
        && isSameRouteLocation s.currentRoute.core (env.resolveCore raw)) = false) :
    pushWithRedirect env (fuel + 1) s raw rf
      = ((afterNavigateWith (fun a b c => pushWithRedirect env fuel a b c) env
            { s with pendingToken := s.nextToken, nextToken := s.nextToken + 1 }
            { core := env.resolveCore raw, token := s.nextToken, redirectedFrom := rf }
            s.currentRoute raw.stateOf raw.forceOf raw.replaceOf rf
            (navigate env s.recs
              { core := env.resolveCore raw, token := s.nextToken, redirectedFrom := rf }
              s.currentRoute).2).1,
         (navigate env s.recs
            { core := env.resolveCore raw, token := s.nextToken, redirectedFrom := rf }
            s.currentRoute).1
           ++ (afterNavigateWith (fun a b c => pushWithRedirect env fuel a b c) env
            { s with pendingToken := s.nextToken, nextToken := s.nextToken + 1 }
            { core := env.resolveCore raw, token := s.nextToken, redirectedFrom := rf }
            s.currentRoute raw.stateOf raw.forceOf raw.replaceOf rf
            (navigate env s.recs
              { core := env.resolveCore raw, token := s.nextToken, redirectedFrom := rf }
              s.currentRoute).2).2.1,
         (afterNavigateWith (fun a b c => pushWithRedirect env fuel a b c) env
            { s with pendingToken := s.nextToken, nextToken := s.nextToken + 1 }
            { core := env.resolveCore raw, token := s.nextToken, redirectedFrom := rf }
            s.currentRoute raw.stateOf raw.forceOf raw.replaceOf rf
            (navigate env s.recs
              { core := env.resolveCore raw, token := s.nextToken, redirectedFrom := rf }
              s.currentRoute).2).2.2) := by
  simp [pushWithRedirect, resolveLoc, h, hdup]

/-- The only failure `finalizeNavigation` ever reports is the cancelled
one. -/
theorem finalize_some (s : RouterState) (toLoc fromLoc : RouteLocation)
    (isPush repl : Bool) (f2 : NavigationFailure)
    (h : (finalizeNavigation s toLoc fromLoc isPush repl).2.2 = some f2) :
    f2 = ⟨FailKind.cancelled, toLoc.core.fullPath, fromLoc.core.fullPath⟩ := by
  by_cases hpend : s.pendingToken = toLoc.token
  · rw [(finalize_matching s toLoc fromLoc isPush repl hpend).1] at h
    cases h
  · rw [finalize_superseded s toLoc fromLoc isPush repl hpend] at h
    exact (Option.some.inj h).symm

/-- The then handler preserves an already-set `redirectedFrom`: whatever
way it resolves with no value, the committed location carries the
original back-reference. -/
theorem thenWith_keepsRF (pushFn : PushFn) (env : Env) (s : RouterState)
    (toLoc fromLoc : RouteLocation) (data : Option Nat) (force repl : Bool)
    (r0 : MatchedTarget) (failure : Option NavigationFailure)
    (hp : ∀ a b, (pushFn a b (some r0)).2.2 = PushResult.resolvedOk →
        (pushFn a b (some r0)).1.currentRoute.redirectedFrom = some r0)
    (hto : toLoc.redirectedFrom = some r0)
    (hok : (afterNavigateThenWith pushFn env s toLoc fromLoc data force repl
        (some r0) failure).2.2 = PushResult.resolvedOk) :
    (afterNavigateThenWith pushFn env s toLoc fromLoc data force repl
        (some r0) failure).1.currentRoute.redirectedFrom = some r0 := by
  cases failure with
  | none =>
    by_cases hpend : s.pendingToken = toLoc.token
    · obtain ⟨hfin, hcur, -⟩ := finalize_matching s toLoc fromLoc true repl hpend
      simp only [afterNavigateThenWith, hfin]
      rw [hcur]
      exact hto
    · rw [show afterNavigateThenWith pushFn env s toLoc fromLoc data force repl
          (some r0) none
        = (let fin := finalizeNavigation s toLoc fromLoc true repl
           let aeEff := triggerAfterEach env fin.2.2
           match fin.2.2 with
           | some f2 => (fin.1, fin.2.1 ++ aeEff, PushResult.resolvedFailure f2)
           | none => (fin.1, fin.2.1 ++ aeEff, PushResult.resolvedOk)) from rfl] at hok
      rw [finalize_superseded s toLoc fromLoc true repl hpend] at hok
      simp at hok
  | some f =>
    rcases f with ⟨kind, tf, ff⟩
    cases kind with
    | guardRedirect t =>
      simp only [afterNavigateThenWith, Option.getD_some] at hok ⊢
      exact hp s (.obj { locationAsObject t with state := data, force := force, replace := repl }) hok
    | aborted => simp [afterNavigateThenWith] at hok
    | cancelled => simp [afterNavigateThenWith] at hok
    | duplicated => simp [afterNavigateThenWith] at hok

/-- The catch handler composed with the then handler preserves an
already-set `redirectedFrom`. -/
theorem afterWith_keepsRF (pushFn : PushFn) (env : Env) (s : RouterState)
    (toLoc fromLoc : RouteLocation) (data : Option Nat) (force repl : Bool)
    (r0 : MatchedTarget) (navRes : Except NavErr Unit)
    (hp : ∀ a b, (pushFn a b (some r0)).2.2 = PushResult.resolvedOk →
        (pushFn a b (some r0)).1.currentRoute.redirectedFrom = some r0)
    (hto : toLoc.redirectedFrom = some r0)
    (hok : (afterNavigateWith pushFn env s toLoc fromLoc data force repl
        (some r0) navRes).2.2 = PushResult.resolvedOk) :
    (afterNavigateWith pushFn env s toLoc fromLoc data force repl
        (some r0) navRes).1.currentRoute.redirectedFrom = some r0 := by
  cases navRes with
  | ok u =>
    simp only [afterNavigateWith] at hok ⊢
    exact thenWith_keepsRF pushFn env s toLoc fromLoc data force repl r0 none hp hto hok
  | error err =>
    simp only [afterNavigateWith] at hok ⊢
    by_cases hpend : (s.pendingToken != toLoc.token) = true
    · rw [if_pos hpend] at hok ⊢
      exact thenWith_keepsRF pushFn env s toLoc fromLoc data force repl r0 _ hp hto hok
    · rw [if_neg hpend] at hok ⊢
      cases err with
      | aborted =>
        exact thenWith_keepsRF pushFn env s toLoc fromLoc data force repl r0 _ hp hto hok
      | guardRedirect t =>
        exact thenWith_keepsRF pushFn env s toLoc fromLoc data force repl r0 _ hp hto hok
      | unknown e => simp at hok

/-- Once `redirectedFrom` is set, every outcome of `pushWithRedirect`
that resolves with no value commits a location carrying that same
back-reference: successive redirects never overwrite it with an
intermediate target. -/
theorem pushWithRedirect_keepsRF (env : Env) (r0 : MatchedTarget) :
    ∀ (fuel : Nat) (s : RouterState) (raw : RawInput),
      (pushWithRedirect env fuel s raw (some r0)).2.2 = PushResult.resolvedOk →
      (pushWithRedirect env fuel s raw (some r0)).1.currentRoute.redirectedFrom
        = some r0 := by
  intro fuel
  induction fuel with
  | zero =>
    intro s raw hok
    simp [pushWithRedirect] at hok
  | succ fuel ih =>
    intro s raw hok
    rcases hred : recordRedirect s.recs (env.resolveCore raw) with _ | rd
    · by_cases hdup : (!raw.forceOf
          && isSameRouteLocation s.currentRoute.core (env.resolveCore raw)) = true
      · rw [pushWithRedirect_dup env fuel s raw (some r0) hred hdup] at hok ⊢
        simp [afterNavigateThenWith] at hok
      · rw [pushWithRedirect_nav env fuel s raw (some r0) hred
          (Bool.not_eq_true _ ▸ eq_false_of_ne_true hdup)] at hok ⊢
        exact afterWith_keepsRF (fun a b c => pushWithRedirect env fuel a b c) env
          _ _ _ _ _ _ r0 _ (fun a b => ih a b) rfl hok
    · by_cases hinv : (rd.path.isNone && rd.name.isNone) = true
      · rw [pushWithRedirect_invalid env fuel s raw (some r0) rd hred hinv] at hok
        cases hok
      · rw [pushWithRedirect_redirect env fuel s raw (some r0) rd hred
          (eq_false_of_ne_true hinv)] at hok ⊢
        exact ih _ _ hok

/-- C5: a record redirect or a guard redirect restarts resolution
against the new target, and the committed location points its
`redirectedFrom` at the original target of the chain: an already-set
`redirectedFrom` is preserved across successive redirects (first
conjunct, for every environment, state and raw target), and in the
concrete chain `/a` to `/b` to `/c` the committed location is `/c` with
`redirectedFrom` the originally resolved `/a`, not the intermediate
`/b`. -/
theorem c5_redirected_from (env : Env) (fuel : Nat) (s : RouterState)
    (raw : RawInput) (r0 : MatchedTarget)
    (h : (pushWithRedirect env fuel s raw (some r0)).2.2 = PushResult.resolvedOk) :
    (pushWithRedirect env fuel s raw (some r0)).1.currentRoute.redirectedFrom = some r0
    ∧ c5out.2.2 = PushResult.resolvedOk
    ∧ c5out.1.currentRoute.core.path = "/c"
    ∧ c5out.1.currentRoute.redirectedFrom
        = some ⟨{ path := "/a", fullPath := "/a", matched := [10] }, 1⟩
    ∧ ¬ (c5out.1.currentRoute.redirectedFrom.map (fun t => t.core.path) = some "/b") :=
  ⟨pushWithRedirect_keepsRF env r0 fuel s raw h, by decide, by decide, by decide, by decide⟩

/-- C5 witness: pushing `/b` (which redirects to `/c`) with
`redirectedFrom` already set preserves that back-reference on the
committed location. -/
theorem c5_redirected_from_witness :
    (pushWithRedirect envC5 5 stateC5 (.str "/b")
        (some ⟨{ path := "/a", fullPath := "/a", matched := [10] }, 99⟩)).1.currentRoute.redirectedFrom
      = some ⟨{ path := "/a", fullPath := "/a", matched := [10] }, 99⟩ :=
  (c5_redirected_from envC5 5 stateC5 (.str "/b")
    ⟨{ path := "/a", fullPath := "/a", matched := [10] }, 99⟩ (by decide)).1

/-- Prepending effects cannot lose a delivered error notification. -/
theorem pushSettlement_extend (env : Env) (pre eff : List Effect) (res : PushResult)
    (h : pushSettlement env eff res) : pushSettlement env (pre ++ eff) res := by
  rcases h with h | h | h | ⟨e, he, hall⟩ | h
  · exact Or.inl h
  · exact Or.inr (Or.inl h)
  · exact Or.inr (Or.inr (Or.inl h))
  · exact Or.inr (Or.inr (Or.inr (Or.inl
      ⟨e, he, fun h2 hmem => List.mem_append_right pre (hall h2 hmem)⟩)))
  · exact Or.inr (Or.inr (Or.inr (Or.inr h)))

/-- The then handler settles within the discipline whenever the
continuation it may invoke does. -/
theorem thenWith_settles (pushFn : PushFn) (env : Env) (s : RouterState)
    (toLoc fromLoc : RouteLocation) (data : Option Nat) (force repl : Bool)
    (rf : Option MatchedTarget) (failure : Option NavigationFailure)
    (hp : ∀ a b c, pushSettlement env (pushFn a b c).2.1 (pushFn a b c).2.2) :
    pushSettlement env
      (afterNavigateThenWith pushFn env s toLoc fromLoc data force repl rf failure).2.1
      (afterNavigateThenWith pushFn env s toLoc fromLoc data force repl rf failure).2.2 := by
  cases failure with
  | none =>
    rcases hfin : (finalizeNavigation s toLoc fromLoc true repl).2.2 with _ | f2
    · simp only [afterNavigateThenWith, hfin]
      exact Or.inl rfl
    · simp only [afterNavigateThenWith, hfin]
      refine Or.inr (Or.inl ⟨f2, rfl, ?_⟩)
      rw [finalize_some s toLoc fromLoc true repl f2 hfin]
      exact Or.inr (Or.inl rfl)
  | some f =>
    rcases f with ⟨kind, tf, ff⟩
    cases kind with
    | guardRedirect t => simpa only [afterNavigateThenWith] using hp s _ _
    | aborted =>
      simp only [afterNavigateThenWith]
      exact Or.inr (Or.inl ⟨⟨FailKind.aborted, tf, ff⟩, rfl, Or.inl rfl⟩)
    | cancelled =>
      simp only [afterNavigateThenWith]
      exact Or.inr (Or.inl ⟨⟨FailKind.cancelled, tf, ff⟩, rfl, Or.inr (Or.inl rfl)⟩)
    | duplicated =>
      simp only [afterNavigateThenWith]
      exact Or.inr (Or.inl ⟨⟨FailKind.duplicated, tf, ff⟩, rfl, Or.inr (Or.inr rfl)⟩)

/-- The catch handler composed with the then handler settles within the
discipline: the unrecognized-error path notifies every `onError` handler
before rejecting. -/
theorem afterWith_settles (pushFn : PushFn) (env : Env) (s : RouterState)
    (toLoc fromLoc : RouteLocation) (data : Option Nat) (force repl : Bool)
    (rf : Option MatchedTarget) (navRes : Except NavErr Unit)
    (hp : ∀ a b c, pushSettlement env (pushFn a b c).2.1 (pushFn a b c).2.2) :
    pushSettlement env
      (afterNavigateWith pushFn env s toLoc fromLoc data force repl rf navRes).2.1
      (afterNavigateWith pushFn env s toLoc fromLoc data force repl rf navRes).2.2 := by
  cases navRes with
  | ok u =>
    simp only [afterNavigateWith]
    exact thenWith_settles pushFn env s toLoc fromLoc data force repl rf none hp
  | error err =>
    simp only [afterNavigateWith]
    by_cases hpend : (s.pendingToken != toLoc.token) = true
    · rw [if_pos hpend]
      exact thenWith_settles pushFn env s toLoc fromLoc data force repl rf _ hp
    · rw [if_neg hpend]
      cases err with
      | aborted => exact thenWith_settles pushFn env s toLoc fromLoc data force repl rf _ hp
      | guardRedirect t =>
        exact thenWith_settles pushFn env s toLoc fromLoc data force repl rf _ hp
      | unknown e =>
        refine Or.inr (Or.inr (Or.inr (Or.inl ⟨e, rfl, ?_⟩)))
        intro h2 hmem
        simp only [triggerError]
        exact List.mem_append_right _ (List.mem_map.mpr ⟨h2, hmem, rfl⟩)

/-- Every settlement of `pushWithRedirect` obeys the discipline. -/
theorem pushWithRedirect_settles (env : Env) :
    ∀ (fuel : Nat) (s : RouterState) (raw : RawInput) (rf : Option MatchedTarget),
      pushSettlement env (pushWithRedirect env fuel s raw rf).2.1
        (pushWithRedirect env fuel s raw rf).2.2 := by
  intro fuel
  induction fuel with
  | zero =>
    intro s raw rf
    exact Or.inr (Or.inr (Or.inr (Or.inr rfl)))
  | succ fuel ih =>
    intro s raw rf
    rcases hred : recordRedirect s.recs (env.resolveCore raw) with _ | rd
    · by_cases hdup : (!raw.forceOf
          && isSameRouteLocation s.currentRoute.core (env.resolveCore raw)) = true
      · rw [pushWithRedirect_dup env fuel s raw rf hred hdup]
        have := thenWith_settles (fun a b c => pushWithRedirect env fuel a b c) env
          { s with pendingToken := s.nextToken, nextToken := s.nextToken + 1 }
          { core := env.resolveCore raw, token := s.nextToken, redirectedFrom := rf }
          s.currentRoute raw.stateOf raw.forceOf raw.replaceOf rf
          (some ⟨FailKind.duplicated, (env.resolveCore raw).fullPath,
            s.currentRoute.core.fullPath⟩) (fun a b c => ih a b c)
        exact pushSettlement_extend env [Effect.scrollHandled s.currentRoute.core.path] _ _ this
      · rw [pushWithRedirect_nav env fuel s raw rf hred (eq_false_of_ne_true hdup)]
        have := afterWith_settles (fun a b c => pushWithRedirect env fuel a b c) env
          { s with pendingToken := s.nextToken, nextToken := s.nextToken + 1 }
          { core := env.resolveCore raw, token := s.nextToken, redirectedFrom := rf }
          s.currentRoute raw.stateOf raw.forceOf raw.replaceOf rf
          (navigate env s.recs
            { core := env.resolveCore raw, token := s.nextToken, redirectedFrom := rf }
            s.currentRoute).2 (fun a b c => ih a b c)
        exact pushSettlement_extend env _ _ _ this
    · by_cases hinv : (rd.path.isNone && rd.name.isNone) = true
      · rw [pushWithRedirect_invalid env fuel s raw rf rd hred hinv]
        exact Or.inr (Or.inr (Or.inl rfl))
      · rw [pushWithRedirect_redirect env fuel s raw rf rd hred (eq_false_of_ne_true hinv)]
        exact ih _ _ _

/-- C6 counterexample: pushing `/redirect` of the invalid-redirect
scenario rejects while the environment holds the registered `onError`
handler `7`, yet no effect at all is performed, in particular no
`errorNotified` delivery: the clause that every rejection is delivered to
every handler registered via `onError` is false on this input. -/
theorem c6_rejection_without_handlers :
    c9out.2.2 = PushResult.rejected RejErr.invalidRedirect
    ∧ envC9.errorHandlers = [7]
    ∧ c9out.2.1 = [] := by
  decide

/-- C6 (amended): the promise returned by `push` or `replace` resolves
with a `NavigationFailure` only of the recoverable kinds aborted,
cancelled or duplicated (never the internal redirect signal), resolves
with no value on success, and rejects only for the invalid-redirect
configuration error (not delivered to `onError`) or for an unrecognized
error, which is additionally delivered to every handler registered via
`onError`. -/
theorem c6_result_classification (env : Env) (fuel : Nat) (s : RouterState)
    (target : RawInput) :
    pushSettlement env (push env fuel s target).2.1 (push env fuel s target).2.2
    ∧ pushSettlement env (replace env fuel s target).2.1
        (replace env fuel s target).2.2 :=
  ⟨pushWithRedirect_settles env fuel s target none,
   pushWithRedirect_settles env fuel s
     (.obj { locationAsObject target with replace := true }) none⟩

/-- C6 witness: the classification applied to the push of the
invalid-redirect scenario. -/
theorem c6_result_classification_witness :
    pushSettlement envC9 (push envC9 3 stateC9 (.str "/redirect")).2.1
      (push envC9 3 stateC9 (.str "/redirect")).2.2 :=
  (c6_result_classification envC9 3 stateC9 (.str "/redirect")).1

/-- C1 witness: the ordering theorem applied to the concrete race
scenario environment. -/
theorem c1_guard_ordering_witness :
    navigate envC2 stateC2.recs c2toA START
      = runGuardQueue envC2 (specGuardOrder envC2 stateC2.recs c2toA START) :=
  c1_guard_ordering envC2 stateC2.recs c2toA START

/-- C10 witness: the definitional identity applied to the concrete push
versus replace scenario. -/
theorem c10_replace_is_push_witness :
    replace envC10 3 stateC10 (.str "/foo")
      = push envC10 3 stateC10
          (.obj { locationAsObject (.str "/foo") with replace := true }) :=
  (c10_replace_is_push envC10 3 stateC10 (.str "/foo")).1

end VueRouter
